import Mathlib

/-!
# bisonrelay: the `golib_plugin` platform adapters

A shallow embedding of `bruig/flutterui/plugin/linux/golib_plugin.cc` and
`bruig/flutterui/plugin/windows/golib_plugin_c_api.cpp`.

* C strings are byte sequences (`List Nat`); a `const gchar*` is the memory
  starting at the pointed-to byte, and a read past the end of the list yields
  the terminating NUL.
* The host framework (GObject, the method channel, the binary messenger) and
  the operating system are external collaborators.  They are modelled by an
  explicit `World` that is threaded through every function: a log of the
  framework calls made, a reference-counted object heap, the messenger's
  per-channel handler table and the behaviour of the `uname` system call.
-/

set_option linter.unusedVariables false

namespace GolibPlugin

/-! ## C strings -/

/-- The string a `const gchar*` denotes: the bytes before the first NUL. -/
def cstr (p : List Nat) : List Nat :=
  p.takeWhile (fun c => decide (c ≠ 0))

/-- An ASCII string literal of the source, as bytes. -/
def lit (s : String) : List Nat :=
  s.toList.map Char.toNat

/-- The C library `strcmp`: walks both strings byte by byte and returns the
difference of the first pair of bytes that differ, or `0` when both strings
end together. -/
def strcmp : List Nat → List Nat → Int
  | [], [] => 0
  | [], b :: _ => (0 : Int) - (b : Int)
  | a :: _, [] => (a : Int) - 0
  | a :: as, b :: bs =>
    if a ≠ b then (a : Int) - (b : Int)
    else if a = 0 then 0
    else strcmp as bs

/-- The glib `g_strdup_printf`, for the conversions this program uses: `%s`
inserts the next argument (a C string), `%%` a percent sign, every other byte
of the format is copied; the format ends at its NUL. A `%s` without an
argument left inserts nothing. -/
def g_strdup_printf : List Nat → List (List Nat) → List Nat
  | [], _ => []
  | [c], _ => if c = 0 then [] else [c]
  | c :: d :: fmt, args =>
    if c = 0 then []
    else if c = 37 ∧ d = 115 then
      match args with
      | [] => g_strdup_printf fmt []
      | a :: rest => cstr a ++ g_strdup_printf fmt rest
    else if c = 37 ∧ d = 37 then 37 :: g_strdup_printf fmt args
    else c :: g_strdup_printf (d :: fmt) args

/-! ## The operating system: `uname` -/

/-- The `struct utsname` of `<sys/utsname.h>`: six character arrays. -/
structure utsname where
  sysname : List Nat
  nodename : List Nat
  release : List Nat
  version : List Nat
  machine : List Nat
  domainname : List Nat
  deriving DecidableEq, Repr

/-- The value of `struct utsname uname_data = {}`: every byte of every array
is zero (the arrays are 65 bytes long on Linux). -/
def utsname.zero : utsname :=
  { sysname := List.replicate 65 0
    nodename := List.replicate 65 0
    release := List.replicate 65 0
    version := List.replicate 65 0
    machine := List.replicate 65 0
    domainname := List.replicate 65 0 }

/-! ## Framework values -/

/-- An `FlValue`, the framework's dynamically typed value. -/
inductive FlValue where
  | null
  | bool (b : Bool)
  | int (i : Int)
  | string (s : List Nat)
  deriving DecidableEq, Repr

/-- An `FlMethodResponse`; the framework has these three kinds. -/
inductive FlMethodResponse where
  | success (result : FlValue)
  | error (code : List Nat) (message : List Nat) (details : FlValue)
  | not_implemented
  deriving DecidableEq, Repr

/-- An `FlMethodCall`: the method name (a C string) and the argument payload. -/
structure FlMethodCall where
  name : List Nat
  args : FlValue
  deriving DecidableEq, Repr

/-- A framework call that the handler can make, as recorded in the log. -/
inductive Event where
  | value_new_string (s : List Nat)
  | success_response_new (result : FlValue)
  | not_implemented_response_new
  | respond (call : FlMethodCall) (response : FlMethodResponse)
  deriving DecidableEq, Repr

/-! ## The object heap -/

/-- A function pointer usable as a method call handler. `method_call_cb` is
the one this program defines; `foreign` stands for any other. -/
inductive Callback where
  | method_call_cb
  | foreign (id : Nat)
  deriving DecidableEq, Repr

/-- A `GDestroyNotify` function pointer. -/
inductive DestroyNotify where
  | g_object_unref
  | foreign (id : Nat)
  deriving DecidableEq, Repr

/-- The handler slot of a method channel, as set by
`fl_method_channel_set_method_call_handler`. -/
structure Handler where
  callback : Callback
  user_data : Nat
  destroy_notify : Option DestroyNotify
  deriving DecidableEq, Repr

/-- What a heap object is. `golib_plugin` is `struct _GolibPlugin`, which has
no field besides its parent `GObject`. -/
inductive ObjData where
  | golib_plugin
  | standard_method_codec
  | method_channel (messenger : Nat) (name : List Nat) (codec : Nat)
      (handler : Option Handler)
  deriving DecidableEq, Repr

/-- A `GObject`: its reference count and its data. An object whose count has
reached zero stays in the heap as a released object. -/
structure GObj where
  ref_count : Nat
  data : ObjData
  deriving DecidableEq, Repr

/-- The state of the host process that the adapter can observe or change. -/
structure World where
  /-- Behaviour of the `uname` system call on a buffer: return code and the
  buffer afterwards. -/
  uname : utsname → Int × utsname
  /-- Framework calls made by handlers so far, oldest first. -/
  log : List Event
  /-- Objects by address; addresses from `next` on are free. -/
  heap : Nat → Option GObj
  next : Nat
  /-- The binary messenger's table: messenger and channel name to the method
  channel that receives the messages. -/
  channels : Nat → List Nat → Option Nat

/-! ## Framework operations used by the handler -/

def fl_method_call_get_name (method_call : FlMethodCall) : List Nat :=
  method_call.name

/-- The framework's `fl_value_new_string`: copies the C string. -/
def fl_value_new_string (s : List Nat) (w : World) : FlValue × World :=
  (FlValue.string (cstr s), { w with log := w.log ++ [Event.value_new_string (cstr s)] })

def fl_method_success_response_new (result : FlValue) (w : World) :
    FlMethodResponse × World :=
  (FlMethodResponse.success result,
    { w with log := w.log ++ [Event.success_response_new result] })

def fl_method_not_implemented_response_new (w : World) : FlMethodResponse × World :=
  (FlMethodResponse.not_implemented,
    { w with log := w.log ++ [Event.not_implemented_response_new] })

/-- The framework's `fl_method_call_respond`: hands the response to the
framework. -/
def fl_method_call_respond (method_call : FlMethodCall) (response : FlMethodResponse)
    (w : World) : World :=
  { w with log := w.log ++ [Event.respond method_call response] }

/-! ## linux/golib_plugin.cc -/

/-- The function `golib_plugin_handle_method_call` of `linux/golib_plugin.cc`.
`self` is the address of the plugin instance. -/
def golib_plugin_handle_method_call (self : Nat) (method_call : FlMethodCall)
    (w : World) : World :=
  let method := fl_method_call_get_name method_call
  if strcmp method (lit "getPlatformVersion") = 0 then
    let uname_data := (w.uname utsname.zero).2
    let version := g_strdup_printf (lit "Linux %s") [uname_data.version]
    let (result, w1) := fl_value_new_string version w
    let (response, w2) := fl_method_success_response_new result w1
    fl_method_call_respond method_call response w2
  else
    let (response, w1) := fl_method_not_implemented_response_new w
    fl_method_call_respond method_call response w1

/-- Whether an event is a call of `fl_method_call_respond`. -/
def Event.isRespond : Event → Bool
  | Event.respond _ _ => true
  | _ => false

/-- The responses handed to the framework in a log, oldest first. -/
def responses : List Event → List FlMethodResponse
  | [] => []
  | Event.respond _ r :: es => r :: responses es
  | _ :: es => responses es

def FlMethodResponse.isSuccess : FlMethodResponse → Bool
  | FlMethodResponse.success _ => true
  | _ => false

def FlMethodResponse.isError : FlMethodResponse → Bool
  | FlMethodResponse.error _ _ _ => true
  | _ => false

/-- The macro `GOLIB_PLUGIN(obj)`: a checked cast, which yields the same
address. -/
def GOLIB_PLUGIN (obj : Nat) : Nat := obj

/-- The function `method_call_cb` of `linux/golib_plugin.cc`. -/
def method_call_cb (channel : Nat) (method_call : FlMethodCall) (user_data : Nat)
    (w : World) : World :=
  let plugin := GOLIB_PLUGIN user_data
  golib_plugin_handle_method_call plugin method_call w

/-! ## GObject reference counting -/

/-- The glib `g_object_new`: a fresh object holding one reference, which the
caller owns. -/
def g_object_new (data : ObjData) (w : World) : Nat × World :=
  (w.next,
    { w with
      heap := fun q => if q = w.next then some { ref_count := 1, data := data } else w.heap q
      next := w.next + 1 })

/-- The glib `g_object_ref`: one more reference; returns its argument. -/
def g_object_ref (p : Nat) (w : World) : Nat × World :=
  (p,
    { w with
      heap := fun q =>
        if q = p then (w.heap q).map (fun o => { o with ref_count := o.ref_count + 1 })
        else w.heap q })

/-- Drops one reference of an object that owns no other object (a plugin
instance, a codec). At count zero the object is released. -/
def release (p : Nat) (w : World) : World :=
  { w with
    heap := fun q =>
      if q = p then (w.heap q).map (fun o => { o with ref_count := o.ref_count - 1 })
      else w.heap q }

/-- Runs the destroy notify of a handler on its user data. -/
def run_destroy_notify (h : Handler) (w : World) : World :=
  match h.destroy_notify with
  | some DestroyNotify.g_object_unref => release h.user_data w
  | _ => w

/-- The glib `g_object_unref`. Dropping the last reference of a method
channel disposes it: the channel gives up its codec and runs the destroy
notify of the handler it still holds. -/
def g_object_unref (p : Nat) (w : World) : World :=
  match w.heap p with
  | some { ref_count := 1, data := ObjData.method_channel _ _ codec handler } =>
    let w1 := release p w
    let w2 := release codec w1
    match handler with
    | some h => run_destroy_notify h w2
    | none => w2
  | _ => release p w

/-! ## The method channel and the binary messenger -/

/-- An `FlPluginRegistrar`; the adapter only asks it for its messenger. -/
structure FlPluginRegistrar where
  messenger : Nat
  deriving DecidableEq, Repr

def fl_plugin_registrar_get_messenger (registrar : FlPluginRegistrar) : Nat :=
  registrar.messenger

def fl_standard_method_codec_new (w : World) : Nat × World :=
  g_object_new ObjData.standard_method_codec w

/-- Writes the handler slot of the method channel object at `channel`; the
other fields of the channel (`m`, `nm`, `codec`) and its reference count stay
as they are. -/
def store_handler (channel m : Nat) (nm : List Nat) (codec : Nat)
    (handler : Option Handler) (w : World) : World :=
  { w with
    heap := fun q =>
      if q = channel then
        (w.heap q).map (fun o => { o with data := ObjData.method_channel m nm codec handler })
      else w.heap q }

/-- The framework's `channel_closed_cb`: the messenger closes a channel. The
handler is disconnected (its destroy notify runs on its user data) and the
reference the messenger held on the channel is dropped. -/
def channel_closed_cb (channel : Nat) (w : World) : World :=
  match w.heap channel with
  | some { ref_count := rc, data := ObjData.method_channel m nm codec handler } =>
    let w1 := match handler with
      | some h => run_destroy_notify h w
      | none => w
    let w2 := store_handler channel m nm codec none w1
    g_object_unref channel w2
  | _ => w

/-- The framework's `fl_binary_messenger_set_message_handler_on_channel`, as
the method channel uses it: the table entry of the name is replaced, and a
channel that was registered under the name before is closed. -/
def fl_binary_messenger_set_message_handler_on_channel (messenger : Nat)
    (name : List Nat) (channel : Nat) (w : World) : World :=
  let w1 := match w.channels messenger name with
    | some old => channel_closed_cb old w
    | none => w
  { w1 with
    channels := fun m nm =>
      if m = messenger ∧ nm = name then some channel else w1.channels m nm }

/-- The framework's `fl_method_channel_new`: a new channel object that keeps a
reference on its codec, entered in the messenger's table, which keeps a
reference on the channel. -/
def fl_method_channel_new (messenger : Nat) (name : List Nat) (codec : Nat)
    (w : World) : Nat × World :=
  let (self, w1) := g_object_new (ObjData.method_channel messenger (cstr name) codec none) w
  let (_, w2) := g_object_ref codec w1
  let (user_data, w3) := g_object_ref self w2
  (self, fl_binary_messenger_set_message_handler_on_channel messenger (cstr name) user_data w3)

/-- The framework's `fl_method_channel_set_method_call_handler`: a handler
already set is disconnected first (its destroy notify runs), then the new
handler, its user data and its destroy notify are stored in the channel. -/
def fl_method_channel_set_method_call_handler (channel : Nat) (handler : Callback)
    (user_data : Nat) (destroy_notify : Option DestroyNotify) (w : World) : World :=
  match w.heap channel with
  | some { ref_count := _, data := ObjData.method_channel m nm codec old } =>
    let w1 := match old with
      | some h => run_destroy_notify h w
      | none => w
    store_handler channel m nm codec
      (some { callback := handler, user_data := user_data, destroy_notify := destroy_notify })
      w1
  | _ => w

/-- Calls a handler function pointer. -/
def invoke (handler : Callback) (channel : Nat) (method_call : FlMethodCall)
    (user_data : Nat) (w : World) : World :=
  match handler with
  | Callback.method_call_cb => method_call_cb channel method_call user_data w
  | Callback.foreign _ => w

/-- The handlers the framework calls for a message that arrives at a
messenger on a channel name: the handler of the channel in the table. -/
def handlers_for (messenger : Nat) (name : List Nat) (w : World) : List Handler :=
  match w.channels messenger (cstr name) with
  | some channel =>
    match w.heap channel with
    | some { ref_count := _, data := ObjData.method_channel _ _ _ (some h) } => [h]
    | _ => []
  | none => []

/-- The framework delivers an incoming method call: it looks the channel up
by name and calls the handler set on it. -/
def deliver (messenger : Nat) (name : List Nat) (method_call : FlMethodCall)
    (w : World) : World :=
  match w.channels messenger (cstr name) with
  | some channel =>
    match w.heap channel with
    | some { ref_count := _, data := ObjData.method_channel _ _ _ (some h) } =>
      invoke h.callback channel method_call h.user_data w
    | _ => w
  | none => w

/-- The messenger tears a channel down: the entry leaves the table and the
channel is closed. -/
def teardown (messenger : Nat) (name : List Nat) (w : World) : World :=
  match w.channels messenger (cstr name) with
  | some channel =>
    let w1 : World :=
      { w with
        channels := fun m nm =>
          if m = messenger ∧ nm = cstr name then none else w.channels m nm }
    channel_closed_cb channel w1
  | none => w

/-- The function `golib_plugin_register_with_registrar` of
`linux/golib_plugin.cc`. The two `g_autoptr` variables are released when the
function returns, the later declaration first. -/
def golib_plugin_register_with_registrar (registrar : FlPluginRegistrar)
    (w : World) : World :=
  let (plugin, w1) := g_object_new ObjData.golib_plugin w
  let (codec, w2) := fl_standard_method_codec_new w1
  let (channel, w3) :=
    fl_method_channel_new (fl_plugin_registrar_get_messenger registrar)
      (lit "golib_plugin") codec w2
  let (user_data, w4) := g_object_ref (GOLIB_PLUGIN plugin) w3
  let w5 := fl_method_channel_set_method_call_handler channel Callback.method_call_cb
    user_data (some DestroyNotify.g_object_unref) w4
  let w6 := g_object_unref plugin w5
  let w7 := g_object_unref channel w6
  g_object_unref codec w7

/-- The reference count of the object at an address; zero when there is none
or when it has been released. -/
def ref_count (p : Nat) (w : World) : Nat :=
  match w.heap p with
  | some o => o.ref_count
  | none => 0

/-- A world with an empty heap, no channel, an empty log and the given
`uname` behaviour. -/
def World.empty (uname : utsname → Int × utsname) : World :=
  { uname := uname
    log := []
    heap := fun _ => none
    next := 0
    channels := fun _ _ => none }

/-- The text the handler formats from the `uname` result. -/
def platform_version (w : World) : List Nat :=
  lit "Linux " ++ cstr (w.uname utsname.zero).2.version

/-- Whether the object at an address is a method channel. -/
def is_channel (p : Nat) (w : World) : Bool :=
  match w.heap p with
  | some { ref_count := _, data := ObjData.method_channel _ _ _ _ } => true
  | _ => false

/-- Well-formed worlds: the free addresses hold nothing and nothing refers to
them, neither the messenger's table nor a method channel (by its codec or by
the user data of its handler). -/
def World.wf (w : World) : Prop :=
  (∀ q, w.next ≤ q → w.heap q = none) ∧
  (∀ m nm c, w.channels m nm = some c → c < w.next) ∧
  (∀ p rc m nm c h, w.heap p = some { ref_count := rc, data := ObjData.method_channel m nm c h } →
    c < w.next ∧ ∀ hd, h = some hd → hd.user_data < w.next)

/-- The world `w2` differs from `w1` at most by reference counts and handler
slots of objects below the address `n`. -/
def frame (n : Nat) (w1 w2 : World) : Prop :=
  w2.uname = w1.uname ∧ w2.log = w1.log ∧ w2.next = w1.next ∧ w2.channels = w1.channels ∧
  (∀ q, n ≤ q → w2.heap q = w1.heap q) ∧ (∀ q, is_channel q w2 = is_channel q w1)

/-- The handler slot that registration writes for a plugin at address
`plugin`: `method_call_cb`, the plugin as user data, `g_object_unref` as
destroy notify. -/
def installed_handler (plugin : Nat) : Handler :=
  { callback := Callback.method_call_cb, user_data := plugin,
    destroy_notify := some DestroyNotify.g_object_unref }

/-- The world after the first half of registration, before the messenger's
table is written: the new plugin, codec and channel sit at the first three
free addresses; the plugin holds the creating reference, the codec and the
channel one more each (from the channel and from the messenger). -/
def registration_objects (m : Nat) (w : World) : World :=
  { w with
    next := w.next + 3
    heap := fun q =>
      if q = w.next then some { ref_count := 1, data := ObjData.golib_plugin }
      else if q = w.next + 1 then
        some { ref_count := 2, data := ObjData.standard_method_codec }
      else if q = w.next + 2 then
        some { ref_count := 2,
               data := ObjData.method_channel m (lit "golib_plugin") (w.next + 1) none }
      else w.heap q }

/-! ## windows/golib_plugin_c_api.cpp -/

/-- A `flutter::PluginRegistrarWindows`: the typed wrapper that the framework
builds around a `FlutterDesktopPluginRegistrarRef`. -/
structure PluginRegistrarWindows where
  registrar_ref : Nat
  deriving DecidableEq, Repr

/-- The state of the Windows process that registration can change. -/
structure WinWorld where
  /-- The map `registrars_` of the `flutter::PluginRegistrarManager` singleton. -/
  registrars : Nat → Option PluginRegistrarWindows
  /-- The registrar references on which the manager has set its destruction
  handler. -/
  destruction_handler : Nat → Bool
  /-- The registrars that a registration has been recorded for, oldest first. -/
  registered : List PluginRegistrarWindows

/-- The framework's `PluginRegistrarManager::GetInstance()->GetRegistrar<T>`:
returns the wrapper stored for the reference, creating and storing it when
there is none, and sets the manager's destruction handler on the reference. -/
def GetRegistrar (registrar_ref : Nat) (s : WinWorld) : PluginRegistrarWindows × WinWorld :=
  let wrapper :=
    match s.registrars registrar_ref with
    | some r => r
    | none => { registrar_ref := registrar_ref }
  (wrapper,
    { s with
      registrars := fun k => if k = registrar_ref then some wrapper else s.registrars k
      destruction_handler := fun k =>
        if k = registrar_ref then true else s.destruction_handler k })

/-- The function `GolibPluginCApiRegisterWithRegistrar` of
`windows/golib_plugin_c_api.cpp`. `GolibPlugin::RegisterWithRegistrar` is only
declared in `windows/golib_plugin.h`, so it is a parameter. -/
def GolibPluginCApiRegisterWithRegistrar
    (RegisterWithRegistrar : PluginRegistrarWindows → WinWorld → WinWorld)
    (registrar : Nat) (s : WinWorld) : WinWorld :=
  let (typed, s1) := GetRegistrar registrar s
  RegisterWithRegistrar typed s1

/-- A `RegisterWithRegistrar` that does nothing but record that it was called
and with which registrar. -/
def record_registration (registrar : PluginRegistrarWindows) (s : WinWorld) : WinWorld :=
  { s with registered := s.registered ++ [registrar] }

/-! ## windows/golib_plugin.h -/

/-- A `flutter::EncodableValue`. -/
inductive EncodableValue where
  | null
  | bool (b : Bool)
  | int (i : Int)
  | string (s : List Nat)
  deriving DecidableEq, Repr

/-- A `flutter::MethodCall<flutter::EncodableValue>`. -/
structure MethodCall where
  method_name : List Nat
  arguments : EncodableValue
  deriving DecidableEq, Repr

/-- One resolution of a `flutter::MethodResult`. -/
inductive Resolution where
  | Success (value : EncodableValue)
  | Error (code : List Nat) (message : List Nat) (details : EncodableValue)
  | NotImplemented
  deriving DecidableEq, Repr

/-- A `flutter::MethodResult<flutter::EncodableValue>` handle: the resolutions
made on it so far, oldest first. The handle is for a single use. -/
structure MethodResult where
  resolutions : List Resolution
  deriving DecidableEq, Repr

def MethodResult.Success (result : MethodResult) (value : EncodableValue) : MethodResult :=
  { resolutions := result.resolutions ++ [Resolution.Success value] }

def MethodResult.NotImplemented (result : MethodResult) : MethodResult :=
  { resolutions := result.resolutions ++ [Resolution.NotImplemented] }

/-- Modelled from the spec: the body of `GolibPlugin::HandleMethodCall`, which
`windows/golib_plugin.h` only declares (its definition, in
`windows/golib_plugin.cpp`, is not among the sources). The spec: "on
`"getPlatformVersion"`, query OS version, format, and resolve the result
object with a success payload; otherwise resolve with a "not implemented"
outcome". `os_version` is the text formatted from the OS version query. -/
def HandleMethodCall (os_version : List Nat) (method_call : MethodCall)
    (result : MethodResult) : MethodResult :=
  if method_call.method_name = lit "getPlatformVersion" then
    result.Success (EncodableValue.string os_version)
  else
    result.NotImplemented

/-! ## Sample inputs -/

/-- A `uname` that succeeds and writes the version text `#1 SMP`. -/
def uname_ok : utsname → Int × utsname :=
  fun buf => (0, { buf with version := lit "#1 SMP" ++ List.replicate 59 0 })

/-- A `uname` that succeeds and writes the same version text, with other
bytes after the terminator and another release field. -/
def uname_ok_other : utsname → Int × utsname :=
  fun buf => (0, { buf with version := lit "#1 SMP" ++ [0, 120, 0], release := lit "6.1" ++ [0] })

/-- A `uname` that fails and leaves the buffer as it was. -/
def uname_fails : utsname → Int × utsname :=
  fun buf => (-1, buf)

/-- A world in which calls have been handled and objects exist already. -/
def used_world : World :=
  { uname := uname_ok_other
    log := [Event.not_implemented_response_new,
            Event.respond { name := [], args := FlValue.null } FlMethodResponse.not_implemented]
    heap := fun q => if q = 0 then some { ref_count := 3, data := ObjData.golib_plugin } else none
    next := 1
    channels := fun _ _ => none }

/-- A registrar whose messenger is at address 7. -/
def sample_registrar : FlPluginRegistrar :=
  { messenger := 7 }

/-- The world that one registration on `sample_registrar` leaves when it
starts from the empty world: plugin, codec and channel at addresses 0, 1, 2. -/
def registered_world : World :=
  { uname := uname_ok
    log := []
    heap := fun q =>
      if q = 0 then some { ref_count := 1, data := ObjData.golib_plugin }
      else if q = 1 then some { ref_count := 1, data := ObjData.standard_method_codec }
      else if q = 2 then
        some { ref_count := 1,
               data := ObjData.method_channel 7 (lit "golib_plugin") 1
                 (some { callback := Callback.method_call_cb, user_data := 0,
                         destroy_notify := some DestroyNotify.g_object_unref }) }
      else none
    next := 3
    channels := fun m nm => if m = 7 ∧ nm = lit "golib_plugin" then some 2 else none }

/-! ## Facts about the C string functions -/

theorem cstr_nil : cstr [] = [] := rfl

theorem cstr_cons (c : Nat) (p : List Nat) :
    cstr (c :: p) = if c = 0 then [] else c :: cstr p := by
  by_cases h : c = 0 <;> simp [cstr, List.takeWhile_cons, h]

/-- The comparison `strcmp a b == 0` succeeds exactly when the two pointers
denote the same string. -/
theorem strcmp_eq_zero_iff (a b : List Nat) : strcmp a b = 0 ↔ cstr a = cstr b := by
  induction a generalizing b with
  | nil =>
    cases b with
    | nil => simp [strcmp]
    | cons b bs =>
      by_cases hb : b = 0
      · simp [strcmp, cstr_cons, hb, cstr_nil]
      · simp [strcmp, cstr_cons, hb, cstr_nil]
  | cons a as ih =>
    cases b with
    | nil =>
      by_cases ha : a = 0
      · simp [strcmp, cstr_cons, ha, cstr_nil]
      · simp [strcmp, cstr_cons, ha, cstr_nil]
    | cons b bs =>
      by_cases hab : a = b
      · subst hab
        by_cases ha : a = 0
        · simp [strcmp, cstr_cons, ha]
        · simp [strcmp, cstr_cons, ha, ih]
      · have hne : (a : Int) - (b : Int) ≠ 0 := by omega
        by_cases ha : a = 0
        · have hb : b ≠ 0 := fun h => hab (by omega)
          simp [strcmp, cstr_cons, ha, hb, hab, hne]
          omega
        · by_cases hb : b = 0
          · simp [strcmp, cstr_cons, ha, hb, hab, hne]
          · simp [strcmp, cstr_cons, ha, hb, hab, hne]

/-- A string literal of the source contains no NUL, so it denotes itself. -/
theorem cstr_getPlatformVersion :
    cstr (lit "getPlatformVersion") = lit "getPlatformVersion" := by decide

/-- The format `"Linux %s"` applied to one string argument. -/
theorem printf_Linux (v : List Nat) :
    g_strdup_printf (lit "Linux %s") [v] = lit "Linux " ++ cstr v := by
  simp [lit, g_strdup_printf]

theorem cstr_append_cstr (a b : List Nat) (h : cstr a = a) :
    cstr (a ++ cstr b) = a ++ cstr b := by
  induction a with
  | nil => simp [cstr, List.takeWhile_takeWhile]
  | cons c cs ih =>
    rw [cstr_cons] at h
    by_cases hc : c = 0
    · simp [hc] at h
    · simp only [hc, if_false, List.cons.injEq, true_and] at h
      simp [cstr_cons, hc, ih h]

theorem cstr_Linux : cstr (lit "Linux ") = lit "Linux " := by decide

theorem cstr_zero_version : cstr utsname.zero.version = [] := by decide

theorem responses_append (xs ys : List Event) :
    responses (xs ++ ys) = responses xs ++ responses ys := by
  induction xs with
  | nil => rfl
  | cons e es ih => cases e <;> simp [responses, ih]

/-! ## The two branches of the handler -/

theorem handle_known (self : Nat) (method_call : FlMethodCall) (w : World)
    (h : cstr method_call.name = lit "getPlatformVersion") :
    golib_plugin_handle_method_call self method_call w =
      { w with
        log := w.log ++
          [Event.value_new_string (platform_version w),
           Event.success_response_new (FlValue.string (platform_version w)),
           Event.respond method_call
             (FlMethodResponse.success (FlValue.string (platform_version w)))] } := by
  have hcmp : strcmp method_call.name (lit "getPlatformVersion") = 0 := by
    rw [strcmp_eq_zero_iff, cstr_getPlatformVersion]; exact h
  have hv : cstr (lit "Linux " ++ cstr (w.uname utsname.zero).2.version) =
      lit "Linux " ++ cstr (w.uname utsname.zero).2.version :=
    cstr_append_cstr _ _ cstr_Linux
  simp only [golib_plugin_handle_method_call, fl_method_call_get_name, hcmp, if_true,
    printf_Linux, fl_value_new_string, fl_method_success_response_new,
    fl_method_call_respond, hv, platform_version, List.append_assoc, List.singleton_append,
    List.cons_append, List.nil_append]

theorem handle_unknown (self : Nat) (method_call : FlMethodCall) (w : World)
    (h : cstr method_call.name ≠ lit "getPlatformVersion") :
    golib_plugin_handle_method_call self method_call w =
      { w with
        log := w.log ++
          [Event.not_implemented_response_new,
           Event.respond method_call FlMethodResponse.not_implemented] } := by
  have hcmp : ¬ strcmp method_call.name (lit "getPlatformVersion") = 0 := by
    rw [strcmp_eq_zero_iff, cstr_getPlatformVersion]; exact h
  simp only [golib_plugin_handle_method_call, fl_method_call_get_name, hcmp, if_false,
    fl_method_not_implemented_response_new, fl_method_call_respond, List.append_assoc,
    List.singleton_append, List.cons_append, List.nil_append]

/-! ## Closing a channel only touches the objects it refers to -/

theorem frame_refl (n : Nat) (w : World) : frame n w w :=
  ⟨rfl, rfl, rfl, rfl, fun _ _ => rfl, fun _ => rfl⟩

theorem frame_trans {n : Nat} {w1 w2 w3 : World} (h12 : frame n w1 w2) (h23 : frame n w2 w3) :
    frame n w1 w3 := by
  obtain ⟨a1, a2, a3, a4, a5, a6⟩ := h12
  obtain ⟨b1, b2, b3, b4, b5, b6⟩ := h23
  refine ⟨b1.trans a1, b2.trans a2, b3.trans a3, b4.trans a4, ?_, ?_⟩
  · intro q hq; rw [b5 q hq, a5 q hq]
  · intro q; rw [b6 q, a6 q]

theorem release_heap (p q : Nat) (w : World) :
    (release p w).heap q =
      if q = p then (w.heap q).map (fun o => { o with ref_count := o.ref_count - 1 })
      else w.heap q := rfl

theorem release_frame (n p : Nat) (w : World) (hp : p < n) : frame n w (release p w) := by
  refine ⟨rfl, rfl, rfl, rfl, ?_, ?_⟩
  · intro q hq
    have : q ≠ p := by omega
    simp [release_heap, this]
  · intro q
    unfold is_channel
    rw [release_heap]
    by_cases hqp : q = p
    · subst hqp
      cases hw : w.heap q with
      | none => simp
      | some o =>
        obtain ⟨rc, data⟩ := o
        cases data <;> simp
    · simp [hqp]

theorem run_destroy_notify_frame (n : Nat) (h : Handler) (w : World)
    (hu : h.user_data < n) : frame n w (run_destroy_notify h w) := by
  unfold run_destroy_notify
  split
  · exact release_frame n _ w hu
  · exact frame_refl n w

theorem store_handler_heap (channel m : Nat) (nm : List Nat) (codec : Nat)
    (handler : Option Handler) (w : World) (q : Nat) :
    (store_handler channel m nm codec handler w).heap q =
      if q = channel then
        (w.heap q).map (fun o => { o with data := ObjData.method_channel m nm codec handler })
      else w.heap q := rfl

theorem store_handler_frame (n channel m : Nat) (nm : List Nat) (codec : Nat)
    (handler : Option Handler) (w : World) (hp : channel < n)
    (hc : is_channel channel w = true) :
    frame n w (store_handler channel m nm codec handler w) := by
  refine ⟨rfl, rfl, rfl, rfl, ?_, ?_⟩
  · intro q hq
    have : q ≠ channel := by omega
    simp [store_handler_heap, this]
  · intro q
    by_cases hqc : q = channel
    · subst hqc
      rw [hc]
      unfold is_channel at hc ⊢
      rw [store_handler_heap]
      cases hw : w.heap q with
      | none => simp [hw] at hc
      | some o => simp
    · unfold is_channel
      simp [store_handler_heap, hqc]

theorem g_object_unref_frame (n p : Nat) (w : World) (hp : p < n)
    (hc : ∀ rc m nm c h,
      w.heap p = some { ref_count := rc, data := ObjData.method_channel m nm c h } →
        c < n ∧ ∀ hd, h = some hd → hd.user_data < n) :
    frame n w (g_object_unref p w) := by
  unfold g_object_unref
  split
  · next m nm codec handler heq =>
    obtain ⟨hcodec, hh⟩ := hc 1 m nm codec handler heq
    have f1 := release_frame n p w hp
    have f2 := release_frame n codec (release p w) hcodec
    cases handler with
    | none => exact frame_trans f1 f2
    | some h =>
      exact frame_trans f1 (frame_trans f2 (run_destroy_notify_frame n h _ (hh h rfl)))
  · exact release_frame n p w hp

theorem disconnect_frame (n channel m : Nat) (nm : List Nat) (codec : Nat) (w w1 : World)
    (hp : channel < n) (hcodec : codec < n) (hchan : is_channel channel w = true)
    (f1 : frame n w w1) :
    frame n w (g_object_unref channel (store_handler channel m nm codec none w1)) := by
  have hchan1 : is_channel channel w1 = true := by rw [f1.2.2.2.2.2 channel]; exact hchan
  have f2 := store_handler_frame n channel m nm codec none w1 hp hchan1
  refine frame_trans f1 (frame_trans f2 (g_object_unref_frame n channel _ hp ?_))
  intro rc2 m2 nm2 c2 h2 heq2
  rw [store_handler_heap] at heq2
  simp only [if_true] at heq2
  cases hw1 : w1.heap channel with
  | none => simp [hw1] at heq2
  | some o =>
    simp only [hw1, Option.map_some', Option.some.injEq, GObj.mk.injEq,
      ObjData.method_channel.injEq] at heq2
    obtain ⟨_, _, _, hc2, hh2⟩ := heq2
    subst hc2
    subst hh2
    exact ⟨hcodec, fun hd hhd => by cases hhd⟩

theorem channel_closed_cb_frame (n channel : Nat) (w : World) (hp : channel < n)
    (hc : ∀ rc m nm c h,
      w.heap channel = some { ref_count := rc, data := ObjData.method_channel m nm c h } →
        c < n ∧ ∀ hd, h = some hd → hd.user_data < n) :
    frame n w (channel_closed_cb channel w) := by
  unfold channel_closed_cb
  split
  · next rc m nm codec handler heq =>
    obtain ⟨hcodec, hh⟩ := hc rc m nm codec handler heq
    have hchan : is_channel channel w = true := by simp [is_channel, heq]
    cases handler with
    | none => exact disconnect_frame n channel m nm codec w w hp hcodec hchan (frame_refl n w)
    | some h =>
      exact disconnect_frame n channel m nm codec w _ hp hcodec hchan
        (run_destroy_notify_frame n h w (hh h rfl))
  · exact frame_refl n w

/-! ## Registration, step by step -/

theorem g_object_unref_eq_release (p : Nat) (w : World)
    (h : ∀ m nm c hd,
      w.heap p ≠ some { ref_count := 1, data := ObjData.method_channel m nm c hd }) :
    g_object_unref p w = release p w := by
  unfold g_object_unref
  split
  · next m nm c hd heq => exact absurd heq (h m nm c hd)
  · rfl

/-- The handler that registration installs, for a plugin at address `plugin`. -/
theorem installed_handler_def (plugin : Nat) :
    installed_handler plugin =
      { callback := Callback.method_call_cb, user_data := plugin,
        destroy_notify := some DestroyNotify.g_object_unref } := rfl

/-- The second half of registration (from `g_object_ref(plugin)` to the end),
run in a world where the plugin holds one reference and the codec and the
channel hold two. -/
theorem register_tail (n m : Nat) (nm : List Nat) (x : World)
    (h0 : x.heap n = some { ref_count := 1, data := ObjData.golib_plugin })
    (h1 : x.heap (n + 1) = some { ref_count := 2, data := ObjData.standard_method_codec })
    (h2 : x.heap (n + 2) =
      some { ref_count := 2, data := ObjData.method_channel m nm (n + 1) none }) :
    g_object_unref (n + 1) (g_object_unref (n + 2) (g_object_unref n
      (fl_method_channel_set_method_call_handler (n + 2) Callback.method_call_cb
        (g_object_ref (GOLIB_PLUGIN n) x).1 (some DestroyNotify.g_object_unref)
        (g_object_ref (GOLIB_PLUGIN n) x).2))) =
      { x with
        heap := fun q =>
          if q = n then some { ref_count := 1, data := ObjData.golib_plugin }
          else if q = n + 1 then some { ref_count := 1, data := ObjData.standard_method_codec }
          else if q = n + 2 then
            some { ref_count := 1,
                   data := ObjData.method_channel m nm (n + 1) (some (installed_handler n)) }
          else x.heap q } := by
  have e4 : (g_object_ref (GOLIB_PLUGIN n) x).2.heap (n + 2) =
      some { ref_count := 2, data := ObjData.method_channel m nm (n + 1) none } := by
    simp [g_object_ref, GOLIB_PLUGIN, h2]
  simp only [fl_method_channel_set_method_call_handler, e4]
  rw [g_object_unref_eq_release n, g_object_unref_eq_release (n + 2),
    g_object_unref_eq_release (n + 1)]
  · simp only [release, store_handler, g_object_ref, GOLIB_PLUGIN, installed_handler]
    congr 1
    funext q
    by_cases q0 : q = n
    · subst q0; simp [h0]
    · by_cases q1 : q = n + 1
      · subst q1; simp [h1]
      · by_cases q2 : q = n + 2
        · subst q2; simp [h2]
        · simp [q0, q1, q2]
  · intro m1 nm1 c1 hd1
    simp [release, store_handler, g_object_ref, GOLIB_PLUGIN, h1]
  · intro m1 nm1 c1 hd1
    simp [release, store_handler, g_object_ref, GOLIB_PLUGIN, h2]
  · intro m1 nm1 c1 hd1
    simp [release, store_handler, g_object_ref, GOLIB_PLUGIN, h0]

theorem cstr_golib_plugin : cstr (lit "golib_plugin") = lit "golib_plugin" := by decide

theorem register_unfold (registrar : FlPluginRegistrar) (w : World) :
    golib_plugin_register_with_registrar registrar w =
      g_object_unref (w.next + 1) (g_object_unref (w.next + 2) (g_object_unref w.next
        (fl_method_channel_set_method_call_handler (w.next + 2) Callback.method_call_cb
          (g_object_ref (GOLIB_PLUGIN w.next)
            (fl_binary_messenger_set_message_handler_on_channel registrar.messenger
              (lit "golib_plugin") (w.next + 2)
              (registration_objects registrar.messenger w))).1
          (some DestroyNotify.g_object_unref)
          (g_object_ref (GOLIB_PLUGIN w.next)
            (fl_binary_messenger_set_message_handler_on_channel registrar.messenger
              (lit "golib_plugin") (w.next + 2)
              (registration_objects registrar.messenger w))).2))) := by
  have e : (g_object_ref (w.next + 2) (g_object_ref (w.next + 1)
      (g_object_new (ObjData.method_channel registrar.messenger (lit "golib_plugin")
        (w.next + 1) none)
        (g_object_new ObjData.standard_method_codec
          (g_object_new ObjData.golib_plugin w).2).2).2).2).2 =
      registration_objects registrar.messenger w := by
    simp only [g_object_ref, g_object_new, registration_objects]
    congr 1
    funext q
    by_cases q0 : q = w.next
    · subst q0
      have a1 : ¬ w.next = w.next + 1 + 1 := by omega
      simp [a1]
    · by_cases q1 : q = w.next + 1
      · subst q1; simp
      · by_cases q2 : q = w.next + 2
        · subst q2; simp
        · have a2 : ¬ q = w.next + 1 + 1 := by omega
          simp [q0, q1, q2, a2]
  simp only [golib_plugin_register_with_registrar, fl_standard_method_codec_new,
    fl_method_channel_new, fl_plugin_registrar_get_messenger, cstr_golib_plugin]
  rw [← e]
  rfl

theorem registration_objects_heap_below (m : Nat) (w : World) (q : Nat) (hq : q < w.next) :
    (registration_objects m w).heap q = w.heap q := by
  have q0 : q ≠ w.next := by omega
  have q1 : q ≠ w.next + 1 := by omega
  have q2 : q ≠ w.next + 2 := by omega
  simp [registration_objects, q0, q1, q2]

/-- Writing the messenger's table during registration closes at most a
channel that existed before, and so leaves the three new objects alone. -/
theorem close_previous_frame (m : Nat) (w : World) (hwf : w.wf) :
    frame w.next (registration_objects m w)
      (match (registration_objects m w).channels m (lit "golib_plugin") with
        | some old => channel_closed_cb old (registration_objects m w)
        | none => registration_objects m w) := by
  obtain ⟨_, htab, hobj⟩ := hwf
  cases hold : (registration_objects m w).channels m (lit "golib_plugin") with
  | none => exact frame_refl _ _
  | some old =>
    have hlt : old < w.next := htab m (lit "golib_plugin") old hold
    refine channel_closed_cb_frame w.next old _ hlt ?_
    intro rc m1 nm1 c1 h1 heq
    rw [registration_objects_heap_below m w old hlt] at heq
    exact hobj old rc m1 nm1 c1 h1 heq

/-- The world after registration: the world `wc` in which a channel that was
registered under the name before has been closed, with the three new objects
and the new table entry. -/
theorem register_result (registrar : FlPluginRegistrar) (w : World) (hwf : w.wf) :
    ∃ wc : World, frame w.next (registration_objects registrar.messenger w) wc ∧
      golib_plugin_register_with_registrar registrar w =
        { wc with
          channels := fun m nm =>
            if m = registrar.messenger ∧ nm = lit "golib_plugin" then some (w.next + 2)
            else wc.channels m nm
          heap := fun q =>
            if q = w.next then some { ref_count := 1, data := ObjData.golib_plugin }
            else if q = w.next + 1 then
              some { ref_count := 1, data := ObjData.standard_method_codec }
            else if q = w.next + 2 then
              some { ref_count := 1,
                     data := ObjData.method_channel registrar.messenger (lit "golib_plugin")
                       (w.next + 1) (some (installed_handler w.next)) }
            else wc.heap q } := by
  have hf := close_previous_frame registrar.messenger w hwf
  refine ⟨_, hf, ?_⟩
  rw [register_unfold]
  unfold fl_binary_messenger_set_message_handler_on_channel
  generalize (match (registration_objects registrar.messenger w).channels registrar.messenger
      (lit "golib_plugin") with
    | some old => channel_closed_cb old (registration_objects registrar.messenger w)
    | none => registration_objects registrar.messenger w) = wc at hf ⊢
  obtain ⟨_, _, _, _, hheap, _⟩ := hf
  have a1 : ¬ w.next + 1 = w.next := by omega
  have a2 : ¬ w.next + 2 = w.next := by omega
  have a3 : ¬ w.next + 2 = w.next + 1 := by omega
  rw [register_tail w.next registrar.messenger (lit "golib_plugin")]
  · show wc.heap w.next = _
    rw [hheap w.next (Nat.le_refl _)]
    simp [registration_objects]
  · show wc.heap (w.next + 1) = _
    rw [hheap (w.next + 1) (by omega)]
    simp [registration_objects, a1]
  · show wc.heap (w.next + 2) = _
    rw [hheap (w.next + 2) (by omega)]
    simp [registration_objects, a2, a3]

/-! ## The Linux method call handler -/

/-- C1. For every method name other than `"getPlatformVersion"` (the empty
name, `"doSomethingUnknown"`, names that differ in case or by a prefix or a
suffix), `golib_plugin_handle_method_call` makes exactly two framework calls:
it builds a not-implemented response and responds to the call with it. It
builds no success response and no string value, and changes nothing else. -/
theorem unknown_method_not_implemented (self : Nat) (method_call : FlMethodCall) (w : World)
    (h : cstr method_call.name ≠ lit "getPlatformVersion") :
    golib_plugin_handle_method_call self method_call w =
      { w with
        log := w.log ++
          [Event.not_implemented_response_new,
           Event.respond method_call FlMethodResponse.not_implemented] } :=
  handle_unknown self method_call w h

theorem unknown_method_not_implemented_witness :
    (cstr (lit "doSomethingUnknown") ≠ lit "getPlatformVersion" ∧
      golib_plugin_handle_method_call 0
          { name := lit "doSomethingUnknown", args := FlValue.null } (World.empty uname_ok) =
        { World.empty uname_ok with
          log := (World.empty uname_ok).log ++
            [Event.not_implemented_response_new,
             Event.respond { name := lit "doSomethingUnknown", args := FlValue.null }
               FlMethodResponse.not_implemented] }) ∧
    (cstr [] ≠ lit "getPlatformVersion" ∧
      golib_plugin_handle_method_call 0 { name := [], args := FlValue.null } used_world =
        { used_world with
          log := used_world.log ++
            [Event.not_implemented_response_new,
             Event.respond { name := [], args := FlValue.null }
               FlMethodResponse.not_implemented] }) ∧
    (cstr (lit "GetPlatformVersion") ≠ lit "getPlatformVersion" ∧
      golib_plugin_handle_method_call 0
          { name := lit "GetPlatformVersion", args := FlValue.null } used_world =
        { used_world with
          log := used_world.log ++
            [Event.not_implemented_response_new,
             Event.respond { name := lit "GetPlatformVersion", args := FlValue.null }
               FlMethodResponse.not_implemented] }) ∧
    (cstr (lit "getPlatformVersion2") ≠ lit "getPlatformVersion" ∧
      golib_plugin_handle_method_call 0
          { name := lit "getPlatformVersion2", args := FlValue.null } used_world =
        { used_world with
          log := used_world.log ++
            [Event.not_implemented_response_new,
             Event.respond { name := lit "getPlatformVersion2", args := FlValue.null }
               FlMethodResponse.not_implemented] }) ∧
    (cstr (lit "getPlatformVersio") ≠ lit "getPlatformVersion" ∧
      golib_plugin_handle_method_call 0
          { name := lit "getPlatformVersio", args := FlValue.null } used_world =
        { used_world with
          log := used_world.log ++
            [Event.not_implemented_response_new,
             Event.respond { name := lit "getPlatformVersio", args := FlValue.null }
               FlMethodResponse.not_implemented] }) :=
  ⟨⟨by decide, unknown_method_not_implemented 0 _ _ (by decide)⟩,
   ⟨by decide, unknown_method_not_implemented 0 _ _ (by decide)⟩,
   ⟨by decide, unknown_method_not_implemented 0 _ _ (by decide)⟩,
   ⟨by decide, unknown_method_not_implemented 0 _ _ (by decide)⟩,
   ⟨by decide, unknown_method_not_implemented 0 _ _ (by decide)⟩⟩

/-- C2. When the method name is `"getPlatformVersion"`, then for every
behaviour of `uname`, with `v` the string in the version field after the
call, `golib_plugin_handle_method_call` builds the string value
`"Linux " ++ v`, wraps it in a success response and responds to the call with
that response. -/
theorem platform_version_success (self : Nat) (method_call : FlMethodCall) (w : World)
    (h : cstr method_call.name = lit "getPlatformVersion") :
    golib_plugin_handle_method_call self method_call w =
      { w with
        log := w.log ++
          [Event.value_new_string (lit "Linux " ++ cstr (w.uname utsname.zero).2.version),
           Event.success_response_new
             (FlValue.string (lit "Linux " ++ cstr (w.uname utsname.zero).2.version)),
           Event.respond method_call
             (FlMethodResponse.success
               (FlValue.string (lit "Linux " ++ cstr (w.uname utsname.zero).2.version)))] } :=
  handle_known self method_call w h

theorem platform_version_success_witness :
    cstr (lit "getPlatformVersion") = lit "getPlatformVersion" ∧
    cstr ((World.empty uname_ok).uname utsname.zero).2.version = lit "#1 SMP" ∧
    golib_plugin_handle_method_call 0
        { name := lit "getPlatformVersion", args := FlValue.null } (World.empty uname_ok) =
      { World.empty uname_ok with
        log := (World.empty uname_ok).log ++
          [Event.value_new_string
             (lit "Linux " ++ cstr ((World.empty uname_ok).uname utsname.zero).2.version),
           Event.success_response_new
             (FlValue.string
               (lit "Linux " ++ cstr ((World.empty uname_ok).uname utsname.zero).2.version)),
           Event.respond { name := lit "getPlatformVersion", args := FlValue.null }
             (FlMethodResponse.success
               (FlValue.string
                 (lit "Linux " ++
                   cstr ((World.empty uname_ok).uname utsname.zero).2.version)))] } :=
  ⟨by decide, by decide, platform_version_success 0 _ _ (by decide)⟩

/-- C3. For every method call (any name, any argument payload) and every
behaviour of `uname`, the framework calls that
`golib_plugin_handle_method_call` adds to the log contain exactly one
`fl_method_call_respond`, for the call being handled; it is the last call the
handler makes. -/
theorem responds_exactly_once (self : Nat) (method_call : FlMethodCall) (w : World) :
    ∃ (es : List Event) (r : FlMethodResponse),
      (golib_plugin_handle_method_call self method_call w).log = w.log ++ es ∧
      es.filter Event.isRespond = [Event.respond method_call r] ∧
      es.getLast? = some (Event.respond method_call r) := by
  by_cases h : cstr method_call.name = lit "getPlatformVersion"
  · rw [handle_known self method_call w h]
    exact ⟨_, FlMethodResponse.success (FlValue.string (platform_version w)), rfl,
      by simp [Event.isRespond], by simp⟩
  · rw [handle_unknown self method_call w h]
    exact ⟨_, FlMethodResponse.not_implemented, rfl, by simp [Event.isRespond], by simp⟩

/-- C5. For every method name and every behaviour of `uname` (a failure with
a nonzero return code included, since the return code is not looked at), the
one response that `golib_plugin_handle_method_call` sends is not an error
response: it is a success response when the name is `"getPlatformVersion"`
and the not-implemented response otherwise. -/
theorem never_an_error (self : Nat) (method_call : FlMethodCall) (w : World) :
    ∃ r : FlMethodResponse,
      responses (golib_plugin_handle_method_call self method_call w).log =
        responses w.log ++ [r] ∧
      r.isError = false ∧
      (if cstr method_call.name = lit "getPlatformVersion" then r.isSuccess = true
        else r = FlMethodResponse.not_implemented) := by
  by_cases h : cstr method_call.name = lit "getPlatformVersion"
  · rw [handle_known self method_call w h]
    refine ⟨FlMethodResponse.success (FlValue.string (platform_version w)), ?_, ?_, ?_⟩
    · simp only [responses_append]
      rfl
    · rfl
    · simp [h, FlMethodResponse.isSuccess]
  · rw [handle_unknown self method_call w h]
    refine ⟨FlMethodResponse.not_implemented, ?_, ?_, ?_⟩
    · simp only [responses_append]
      rfl
    · rfl
    · simp [h]

/-- C8. Two calls whose method names are the same string and whose `uname`
calls leave the same string in the version field get the same response,
whatever the argument payloads, the plugin instances and the worlds (earlier
log, heap) are; and the handler changes nothing but the log. -/
theorem response_depends_on_name_and_version (self1 self2 : Nat)
    (call1 call2 : FlMethodCall) (w1 w2 : World)
    (hname : cstr call1.name = cstr call2.name)
    (hversion : cstr (w1.uname utsname.zero).2.version =
      cstr (w2.uname utsname.zero).2.version) :
    (∃ r : FlMethodResponse,
      responses (golib_plugin_handle_method_call self1 call1 w1).log =
        responses w1.log ++ [r] ∧
      responses (golib_plugin_handle_method_call self2 call2 w2).log =
        responses w2.log ++ [r]) ∧
    (golib_plugin_handle_method_call self1 call1 w1).heap = w1.heap ∧
    (golib_plugin_handle_method_call self1 call1 w1).next = w1.next ∧
    (golib_plugin_handle_method_call self1 call1 w1).channels = w1.channels ∧
    (golib_plugin_handle_method_call self1 call1 w1).uname = w1.uname := by
  by_cases h : cstr call1.name = lit "getPlatformVersion"
  · have h2 : cstr call2.name = lit "getPlatformVersion" := hname ▸ h
    rw [handle_known self1 call1 w1 h, handle_known self2 call2 w2 h2]
    refine ⟨⟨FlMethodResponse.success (FlValue.string (platform_version w1)), ?_, ?_⟩,
      rfl, rfl, rfl, rfl⟩
    · simp only [responses_append]
      rfl
    · have hv : platform_version w2 = platform_version w1 := by
        simp only [platform_version, hversion]
      simp only [responses_append, hv]
      rfl
  · have h2 : cstr call2.name ≠ lit "getPlatformVersion" := hname ▸ h
    rw [handle_unknown self1 call1 w1 h, handle_unknown self2 call2 w2 h2]
    refine ⟨⟨FlMethodResponse.not_implemented, ?_, ?_⟩, rfl, rfl, rfl, rfl⟩
    · simp only [responses_append]
      rfl
    · simp only [responses_append]
      rfl

theorem g_object_unref_last_channel (p m : Nat) (nm : List Nat) (c : Nat) (w : World)
    (h : w.heap p = some { ref_count := 1, data := ObjData.method_channel m nm c none }) :
    g_object_unref p w = release c (release p w) := by
  simp only [g_object_unref, h]

/-- Tearing the channel down in a world as registration leaves it. -/
theorem teardown_registered (n m : Nat) (wc : World) :
    teardown m (lit "golib_plugin")
      { wc with
        channels := fun m1 nm1 =>
          if m1 = m ∧ nm1 = lit "golib_plugin" then some (n + 2) else wc.channels m1 nm1
        heap := fun q =>
          if q = n then some { ref_count := 1, data := ObjData.golib_plugin }
          else if q = n + 1 then
            some { ref_count := 1, data := ObjData.standard_method_codec }
          else if q = n + 2 then
            some { ref_count := 1,
                   data := ObjData.method_channel m (lit "golib_plugin") (n + 1)
                     (some (installed_handler n)) }
          else wc.heap q } =
      { wc with
        channels := fun m1 nm1 =>
          if m1 = m ∧ nm1 = lit "golib_plugin" then none else wc.channels m1 nm1
        heap := fun q =>
          if q = n then some { ref_count := 0, data := ObjData.golib_plugin }
          else if q = n + 1 then
            some { ref_count := 0, data := ObjData.standard_method_codec }
          else if q = n + 2 then
            some { ref_count := 0,
                   data := ObjData.method_channel m (lit "golib_plugin") (n + 1) none }
          else wc.heap q } := by
  have a1 : ¬ n + 1 = n := by omega
  have a2 : ¬ n + 2 = n := by omega
  have a3 : ¬ n + 2 = n + 1 := by omega
  simp only [teardown, cstr_golib_plugin, and_self, if_true, channel_closed_cb, a2, a3,
    if_false, run_destroy_notify, installed_handler]
  rw [g_object_unref_last_channel (n + 2) m (lit "golib_plugin") (n + 1)]
  · simp only [release, store_handler]
    congr 1
    · funext q
      by_cases q0 : q = n
      · subst q0; simp
      · by_cases q1 : q = n + 1
        · subst q1; simp
        · by_cases q2 : q = n + 2
          · subst q2; simp
          · simp [q0, q1, q2]
    · funext m1 nm1
      by_cases hk : m1 = m ∧ nm1 = lit "golib_plugin"
      · simp [hk]
      · simp [hk]
  · simp [release, store_handler, a2, a3]

theorem handle_responds (self : Nat) (method_call : FlMethodCall) (w : World) :
    ∃ r : FlMethodResponse,
      responses (golib_plugin_handle_method_call self method_call w).log =
        responses w.log ++ [r] := by
  by_cases h : cstr method_call.name = lit "getPlatformVersion"
  · rw [handle_known self method_call w h]
    refine ⟨FlMethodResponse.success (FlValue.string (platform_version w)), ?_⟩
    simp only [responses_append]
    rfl
  · rw [handle_unknown self method_call w h]
    refine ⟨FlMethodResponse.not_implemented, ?_⟩
    simp only [responses_append]
    rfl

theorem used_world_wf : used_world.wf := by
  refine ⟨?_, ?_, ?_⟩
  · intro q hq
    have : q ≠ 0 := by
      simp only [used_world] at hq
      omega
    simp [used_world, this]
  · intro m nm c h
    simp [used_world] at h
  · intro p rc m nm c h heq
    by_cases hp : p = 0
    · subst hp
      simp [used_world] at heq
    · simp [used_world, hp] at heq

theorem registered_world_wf : registered_world.wf := by
  refine ⟨?_, ?_, ?_⟩
  · intro q hq
    simp only [registered_world] at hq
    have q0 : q ≠ 0 := by omega
    have q1 : q ≠ 1 := by omega
    have q2 : q ≠ 2 := by omega
    simp [registered_world, q0, q1, q2]
  · intro m nm c h
    simp only [registered_world] at h
    split at h
    · simp only [Option.some.injEq] at h
      subst h
      decide
    · cases h
  · intro p rc m nm c h heq
    simp only [registered_world] at heq
    split at heq
    · cases heq
    · split at heq
      · cases heq
      · split at heq
        · simp only [Option.some.injEq, GObj.mk.injEq, ObjData.method_channel.injEq] at heq
          obtain ⟨_, _, _, hc, hh⟩ := heq
          subst hc
          subst hh
          refine ⟨by decide, ?_⟩
          intro hd hhd
          cases hhd
          decide
        · cases heq

/-- The sample world `registered_world` is what registration makes of the
empty world, at every place that the adapter looks at. -/
theorem registered_world_reached :
    (golib_plugin_register_with_registrar sample_registrar (World.empty uname_ok)).next =
      registered_world.next ∧
    (golib_plugin_register_with_registrar sample_registrar (World.empty uname_ok)).heap 0 =
      registered_world.heap 0 ∧
    (golib_plugin_register_with_registrar sample_registrar (World.empty uname_ok)).heap 1 =
      registered_world.heap 1 ∧
    (golib_plugin_register_with_registrar sample_registrar (World.empty uname_ok)).heap 2 =
      registered_world.heap 2 ∧
    (golib_plugin_register_with_registrar sample_registrar (World.empty uname_ok)).channels 7
      (lit "golib_plugin") = registered_world.channels 7 (lit "golib_plugin") := by
  decide

/-- A second registration on the same registrar closes the channel of the
first: the first plugin is released, the first channel loses its handler, and
the one handler for the name is bound to the second plugin. -/
theorem second_registration_replaces_first :
    (golib_plugin_register_with_registrar sample_registrar registered_world).heap 0 =
      some { ref_count := 0, data := ObjData.golib_plugin } ∧
    (golib_plugin_register_with_registrar sample_registrar registered_world).heap 2 =
      some { ref_count := 0, data := ObjData.method_channel 7 (lit "golib_plugin") 1 none } ∧
    (golib_plugin_register_with_registrar sample_registrar registered_world).heap 3 =
      some { ref_count := 1, data := ObjData.golib_plugin } ∧
    handlers_for 7 (lit "golib_plugin")
        (golib_plugin_register_with_registrar sample_registrar registered_world) =
      [installed_handler 3] := by
  decide

/-- Which addresses hold a method channel after registration. -/
theorem register_is_channel (registrar : FlPluginRegistrar) (w wc : World) (hwf : w.wf)
    (hf : frame w.next (registration_objects registrar.messenger w) wc) (q : Nat) :
    is_channel q
        { wc with
          channels := fun m nm =>
            if m = registrar.messenger ∧ nm = lit "golib_plugin" then some (w.next + 2)
            else wc.channels m nm
          heap := fun q =>
            if q = w.next then some { ref_count := 1, data := ObjData.golib_plugin }
            else if q = w.next + 1 then
              some { ref_count := 1, data := ObjData.standard_method_codec }
            else if q = w.next + 2 then
              some { ref_count := 1,
                     data := ObjData.method_channel registrar.messenger (lit "golib_plugin")
                       (w.next + 1) (some (installed_handler w.next)) }
            else wc.heap q } =
      (is_channel q w || decide (q = w.next + 2)) := by
  have a1 : ¬ w.next + 1 = w.next := by omega
  have a2 : ¬ w.next + 2 = w.next := by omega
  have a3 : ¬ w.next + 2 = w.next + 1 := by omega
  have a4 : ¬ w.next = w.next + 2 := by omega
  have a5 : ¬ w.next + 1 = w.next + 2 := by omega
  by_cases q0 : q = w.next
  · subst q0
    have hn : w.heap w.next = none := hwf.1 _ (Nat.le_refl _)
    simp [is_channel, hn, a4]
  · by_cases q1 : q = w.next + 1
    · subst q1
      have hn : w.heap (w.next + 1) = none := hwf.1 _ (by omega)
      simp [is_channel, hn, a1]
    · by_cases q2 : q = w.next + 2
      · subst q2
        simp [is_channel, a2, a3]
      · have e1 : is_channel q wc = is_channel q (registration_objects registrar.messenger w) :=
          hf.2.2.2.2.2 q
        have e2 : is_channel q (registration_objects registrar.messenger w) = is_channel q w := by
          simp [is_channel, registration_objects, q0, q1, q2]
        rw [← e2, ← e1]
        simp [is_channel, q0, q1, q2]

theorem response_depends_on_name_and_version_witness :
    cstr (FlMethodCall.mk (lit "getPlatformVersion") FlValue.null).name =
      cstr (FlMethodCall.mk (lit "getPlatformVersion" ++ [0, 65]) (FlValue.int 5)).name ∧
    cstr ((World.empty uname_ok).uname utsname.zero).2.version =
      cstr (used_world.uname utsname.zero).2.version ∧
    ((∃ r : FlMethodResponse,
      responses (golib_plugin_handle_method_call 0
          (FlMethodCall.mk (lit "getPlatformVersion") FlValue.null)
          (World.empty uname_ok)).log =
        responses (World.empty uname_ok).log ++ [r] ∧
      responses (golib_plugin_handle_method_call 9
          (FlMethodCall.mk (lit "getPlatformVersion" ++ [0, 65]) (FlValue.int 5))
          used_world).log =
        responses used_world.log ++ [r]) ∧
    (golib_plugin_handle_method_call 0
      (FlMethodCall.mk (lit "getPlatformVersion") FlValue.null)
      (World.empty uname_ok)).heap = (World.empty uname_ok).heap ∧
    (golib_plugin_handle_method_call 0
      (FlMethodCall.mk (lit "getPlatformVersion") FlValue.null)
      (World.empty uname_ok)).next = (World.empty uname_ok).next ∧
    (golib_plugin_handle_method_call 0
      (FlMethodCall.mk (lit "getPlatformVersion") FlValue.null)
      (World.empty uname_ok)).channels = (World.empty uname_ok).channels ∧
    (golib_plugin_handle_method_call 0
      (FlMethodCall.mk (lit "getPlatformVersion") FlValue.null)
      (World.empty uname_ok)).uname = (World.empty uname_ok).uname) :=
  ⟨by decide, by decide,
    response_depends_on_name_and_version 0 9
      (FlMethodCall.mk (lit "getPlatformVersion") FlValue.null)
      (FlMethodCall.mk (lit "getPlatformVersion" ++ [0, 65]) (FlValue.int 5))
      (World.empty uname_ok) used_world (by decide) (by decide)⟩

/-- C10. The buffer handed to `uname` is all zeros. So when `uname` leaves
the buffer as it was (as it does when it fails; the return code is not looked
at), the response to `"getPlatformVersion"` is a success response whose
payload is exactly the six bytes of `"Linux "`. -/
theorem unwritten_buffer_gives_bare_Linux (self : Nat) (method_call : FlMethodCall)
    (w : World) (hname : cstr method_call.name = lit "getPlatformVersion")
    (hbuf : (w.uname utsname.zero).2 = utsname.zero) :
    golib_plugin_handle_method_call self method_call w =
      { w with
        log := w.log ++
          [Event.value_new_string (lit "Linux "),
           Event.success_response_new (FlValue.string (lit "Linux ")),
           Event.respond method_call
             (FlMethodResponse.success (FlValue.string (lit "Linux ")))] } ∧
    (lit "Linux ").length = 6 := by
  have hv : platform_version w = lit "Linux " := by
    simp only [platform_version, hbuf, cstr_zero_version, List.append_nil]
  refine ⟨?_, by decide⟩
  rw [handle_known self method_call w hname, hv]

theorem unwritten_buffer_gives_bare_Linux_witness :
    cstr (FlMethodCall.mk (lit "getPlatformVersion") FlValue.null).name =
      lit "getPlatformVersion" ∧
    ((World.empty uname_fails).uname utsname.zero).1 = -1 ∧
    ((World.empty uname_fails).uname utsname.zero).2 = utsname.zero ∧
    (golib_plugin_handle_method_call 0
        (FlMethodCall.mk (lit "getPlatformVersion") FlValue.null) (World.empty uname_fails) =
      { World.empty uname_fails with
        log := (World.empty uname_fails).log ++
          [Event.value_new_string (lit "Linux "),
           Event.success_response_new (FlValue.string (lit "Linux ")),
           Event.respond (FlMethodCall.mk (lit "getPlatformVersion") FlValue.null)
             (FlMethodResponse.success (FlValue.string (lit "Linux ")))] } ∧
    (lit "Linux ").length = 6) :=
  ⟨by decide, by decide, by decide,
    unwritten_buffer_gives_bare_Linux 0
      (FlMethodCall.mk (lit "getPlatformVersion") FlValue.null) (World.empty uname_fails)
      (by decide) (by decide)⟩

/-! ## Registration -/

/-- C4. One call of `golib_plugin_register_with_registrar` in a well-formed
world creates three objects at the first free addresses: the plugin, a
standard method codec, and one method channel named `"golib_plugin"` over the
registrar's messenger with that codec. No other address becomes a method
channel. The channel carries one handler, `method_call_cb` with the new
plugin as user data, and it is the channel the messenger's table holds for
the name, so an incoming call on the name is delivered as exactly one run of
`golib_plugin_handle_method_call` on the new plugin, which adds exactly one
response. -/
theorem registration_installs_one_handler (registrar : FlPluginRegistrar) (w : World)
    (hwf : w.wf) :
    (golib_plugin_register_with_registrar registrar w).next = w.next + 3 ∧
    (golib_plugin_register_with_registrar registrar w).heap w.next =
      some { ref_count := 1, data := ObjData.golib_plugin } ∧
    (golib_plugin_register_with_registrar registrar w).heap (w.next + 1) =
      some { ref_count := 1, data := ObjData.standard_method_codec } ∧
    (golib_plugin_register_with_registrar registrar w).heap (w.next + 2) =
      some { ref_count := 1,
             data := ObjData.method_channel registrar.messenger (lit "golib_plugin")
               (w.next + 1)
               (some { callback := Callback.method_call_cb, user_data := w.next,
                       destroy_notify := some DestroyNotify.g_object_unref }) } ∧
    (∀ q, is_channel q (golib_plugin_register_with_registrar registrar w) =
      (is_channel q w || decide (q = w.next + 2))) ∧
    (golib_plugin_register_with_registrar registrar w).channels registrar.messenger
      (lit "golib_plugin") = some (w.next + 2) ∧
    handlers_for registrar.messenger (lit "golib_plugin")
        (golib_plugin_register_with_registrar registrar w) =
      [{ callback := Callback.method_call_cb, user_data := w.next,
         destroy_notify := some DestroyNotify.g_object_unref }] ∧
    (∀ method_call : FlMethodCall,
      deliver registrar.messenger (lit "golib_plugin") method_call
          (golib_plugin_register_with_registrar registrar w) =
        golib_plugin_handle_method_call w.next method_call
          (golib_plugin_register_with_registrar registrar w)) ∧
    (∀ method_call : FlMethodCall, ∃ r : FlMethodResponse,
      responses (deliver registrar.messenger (lit "golib_plugin") method_call
          (golib_plugin_register_with_registrar registrar w)).log =
        responses (golib_plugin_register_with_registrar registrar w).log ++ [r]) := by
  obtain ⟨wc, hf, he⟩ := register_result registrar w hwf
  have a1 : ¬ w.next + 1 = w.next := by omega
  have a2 : ¬ w.next + 2 = w.next := by omega
  have a3 : ¬ w.next + 2 = w.next + 1 := by omega
  have hdel : ∀ method_call : FlMethodCall,
      deliver registrar.messenger (lit "golib_plugin") method_call
          (golib_plugin_register_with_registrar registrar w) =
        golib_plugin_handle_method_call w.next method_call
          (golib_plugin_register_with_registrar registrar w) := by
    intro method_call
    rw [he]
    simp [deliver, cstr_golib_plugin, a2, a3, invoke, method_call_cb, GOLIB_PLUGIN,
      installed_handler]
  refine ⟨?_, ?_, ?_, ?_, ?_, ?_, ?_, hdel, ?_⟩
  · rw [he]
    show wc.next = w.next + 3
    rw [hf.2.2.1]
    rfl
  · rw [he]
    simp
  · rw [he]
    simp [a1]
  · rw [he]
    simp [a2, a3, installed_handler]
  · intro q
    rw [he]
    exact register_is_channel registrar w wc hwf hf q
  · rw [he]
    simp
  · rw [he]
    simp [handlers_for, cstr_golib_plugin, a2, a3, installed_handler]
  · intro method_call
    rw [hdel method_call]
    exact handle_responds _ _ _

theorem registration_installs_one_handler_witness :
    registered_world.wf ∧
    ((golib_plugin_register_with_registrar sample_registrar registered_world).next =
      registered_world.next + 3 ∧
    (golib_plugin_register_with_registrar sample_registrar registered_world).heap registered_world.next =
      some { ref_count := 1, data := ObjData.golib_plugin } ∧
    (golib_plugin_register_with_registrar sample_registrar registered_world).heap
        (registered_world.next + 1) =
      some { ref_count := 1, data := ObjData.standard_method_codec } ∧
    (golib_plugin_register_with_registrar sample_registrar registered_world).heap
        (registered_world.next + 2) =
      some { ref_count := 1,
             data := ObjData.method_channel sample_registrar.messenger (lit "golib_plugin")
               (registered_world.next + 1)
               (some { callback := Callback.method_call_cb, user_data := registered_world.next,
                       destroy_notify := some DestroyNotify.g_object_unref }) } ∧
    (∀ q, is_channel q (golib_plugin_register_with_registrar sample_registrar registered_world) =
      (is_channel q registered_world || decide (q = registered_world.next + 2))) ∧
    (golib_plugin_register_with_registrar sample_registrar registered_world).channels
      sample_registrar.messenger (lit "golib_plugin") = some (registered_world.next + 2) ∧
    handlers_for sample_registrar.messenger (lit "golib_plugin")
        (golib_plugin_register_with_registrar sample_registrar registered_world) =
      [{ callback := Callback.method_call_cb, user_data := registered_world.next,
         destroy_notify := some DestroyNotify.g_object_unref }] ∧
    (∀ method_call : FlMethodCall,
      deliver sample_registrar.messenger (lit "golib_plugin") method_call
          (golib_plugin_register_with_registrar sample_registrar registered_world) =
        golib_plugin_handle_method_call registered_world.next method_call
          (golib_plugin_register_with_registrar sample_registrar registered_world)) ∧
    (∀ method_call : FlMethodCall, ∃ r : FlMethodResponse,
      responses (deliver sample_registrar.messenger (lit "golib_plugin") method_call
          (golib_plugin_register_with_registrar sample_registrar registered_world)).log =
        responses (golib_plugin_register_with_registrar sample_registrar registered_world).log ++
          [r])) :=
  ⟨registered_world_wf, registration_installs_one_handler sample_registrar registered_world registered_world_wf⟩

/-- C9. Reference counting in `golib_plugin_register_with_registrar` is
balanced. `g_object_new` creates the plugin with one reference and
`g_object_ref` takes one more; when registration returns, the plugin holds
exactly one reference and the handler installed on the channel refers to it,
with `g_object_unref` as destroy notify. When the messenger tears the channel
down, the count of the plugin reaches zero and no handler is left for the
name. -/
theorem registration_refcount_balanced (registrar : FlPluginRegistrar) (w : World)
    (hwf : w.wf) :
    ref_count w.next (g_object_new ObjData.golib_plugin w).2 = 1 ∧
    ref_count w.next (g_object_ref w.next (g_object_new ObjData.golib_plugin w).2).2 = 2 ∧
    (golib_plugin_register_with_registrar registrar w).heap w.next =
      some { ref_count := 1, data := ObjData.golib_plugin } ∧
    ref_count w.next (golib_plugin_register_with_registrar registrar w) = 1 ∧
    handlers_for registrar.messenger (lit "golib_plugin")
        (golib_plugin_register_with_registrar registrar w) =
      [{ callback := Callback.method_call_cb, user_data := w.next,
         destroy_notify := some DestroyNotify.g_object_unref }] ∧
    (teardown registrar.messenger (lit "golib_plugin")
        (golib_plugin_register_with_registrar registrar w)).heap w.next =
      some { ref_count := 0, data := ObjData.golib_plugin } ∧
    ref_count w.next (teardown registrar.messenger (lit "golib_plugin")
        (golib_plugin_register_with_registrar registrar w)) = 0 ∧
    handlers_for registrar.messenger (lit "golib_plugin")
        (teardown registrar.messenger (lit "golib_plugin")
          (golib_plugin_register_with_registrar registrar w)) = [] := by
  obtain ⟨wc, hf, he⟩ := register_result registrar w hwf
  have a2 : ¬ w.next + 2 = w.next := by omega
  have a3 : ¬ w.next + 2 = w.next + 1 := by omega
  refine ⟨?_, ?_, ?_, ?_, ?_, ?_, ?_, ?_⟩
  · simp [ref_count, g_object_new]
  · simp [ref_count, g_object_new, g_object_ref]
  · rw [he]
    simp
  · rw [he]
    simp [ref_count]
  · rw [he]
    simp [handlers_for, cstr_golib_plugin, a2, a3, installed_handler]
  · rw [he, teardown_registered]
    simp
  · rw [he, teardown_registered]
    simp [ref_count]
  · rw [he, teardown_registered]
    simp [handlers_for, cstr_golib_plugin]

theorem registration_refcount_balanced_witness :
    used_world.wf ∧
    (ref_count used_world.next (g_object_new ObjData.golib_plugin used_world).2 = 1 ∧
    ref_count used_world.next
      (g_object_ref used_world.next (g_object_new ObjData.golib_plugin used_world).2).2 = 2 ∧
    (golib_plugin_register_with_registrar sample_registrar used_world).heap used_world.next =
      some { ref_count := 1, data := ObjData.golib_plugin } ∧
    ref_count used_world.next
      (golib_plugin_register_with_registrar sample_registrar used_world) = 1 ∧
    handlers_for sample_registrar.messenger (lit "golib_plugin")
        (golib_plugin_register_with_registrar sample_registrar used_world) =
      [{ callback := Callback.method_call_cb, user_data := used_world.next,
         destroy_notify := some DestroyNotify.g_object_unref }] ∧
    (teardown sample_registrar.messenger (lit "golib_plugin")
        (golib_plugin_register_with_registrar sample_registrar used_world)).heap
        used_world.next =
      some { ref_count := 0, data := ObjData.golib_plugin } ∧
    ref_count used_world.next (teardown sample_registrar.messenger (lit "golib_plugin")
        (golib_plugin_register_with_registrar sample_registrar used_world)) = 0 ∧
    handlers_for sample_registrar.messenger (lit "golib_plugin")
        (teardown sample_registrar.messenger (lit "golib_plugin")
          (golib_plugin_register_with_registrar sample_registrar used_world)) = []) :=
  ⟨used_world_wf, registration_refcount_balanced sample_registrar used_world used_world_wf⟩

/-! ## The Windows adapter -/

/-- C6. For every registrar reference and every `RegisterWithRegistrar`,
`GolibPluginCApiRegisterWithRegistrar` is `RegisterWithRegistrar` applied to
the typed registrar that the manager resolves from the reference, in the
state the manager leaves; nothing is done before the resolution or after the
call. With the recording `RegisterWithRegistrar`, exactly one registration is
recorded, for that typed registrar, and the manager state is the one that
`GetRegistrar` left. -/
theorem c_api_forwards_once
    (RegisterWithRegistrar : PluginRegistrarWindows → WinWorld → WinWorld)
    (registrar : Nat) (s : WinWorld) :
    GolibPluginCApiRegisterWithRegistrar RegisterWithRegistrar registrar s =
      RegisterWithRegistrar (GetRegistrar registrar s).1 (GetRegistrar registrar s).2 ∧
    (GolibPluginCApiRegisterWithRegistrar record_registration registrar s).registered =
      s.registered ++ [(GetRegistrar registrar s).1] ∧
    (GolibPluginCApiRegisterWithRegistrar record_registration registrar s).registrars =
      (GetRegistrar registrar s).2.registrars ∧
    (GolibPluginCApiRegisterWithRegistrar record_registration registrar s).destruction_handler =
      (GetRegistrar registrar s).2.destruction_handler :=
  ⟨rfl, rfl, rfl, rfl⟩

/-- C7. `GolibPlugin::HandleMethodCall` adds exactly one resolution to its
result handle on every path: a success with a string payload when the method
name is `"getPlatformVersion"`, the not-implemented outcome for every other
name. On a fresh handle that is the only resolution. -/
theorem handle_method_call_resolves_once (os_version : List Nat) (method_call : MethodCall)
    (result : MethodResult) :
    (HandleMethodCall os_version method_call result).resolutions =
      result.resolutions ++
        [if method_call.method_name = lit "getPlatformVersion" then
           Resolution.Success (EncodableValue.string os_version)
         else Resolution.NotImplemented] ∧
    (HandleMethodCall os_version method_call { resolutions := [] }).resolutions.length = 1 := by
  by_cases h : method_call.method_name = lit "getPlatformVersion"
  · simp [HandleMethodCall, h, MethodResult.Success]
  · simp [HandleMethodCall, h, MethodResult.NotImplemented]

end GolibPlugin
